import Mathlib

/-!
Shallow embedding of src/src/websocket_stream.cpp (libtorrent aux::websocket_stream):
the client-side WebSocket connection state machine. Each C++ member function becomes a
pure function from the machine state to a new state together with the ordered list of
side effects it performs (posted handler invocations and initiated async operations).
External collaborators (URL parser, resolver, boost asio async_connect, OpenSSL SNI
setup) are parameterized by their outcomes at their interface boundary.
-/

namespace WebsocketStream

/-- Error codes that flow through the machine. `ok` is the falsy `error_code{}`;
the named constructors are the specific asio/beast codes the source posts;
the `Nat`-carrying constructors stand for arbitrary codes produced by external
collaborators (URL parser, resolver, TCP connect, protocol handshake, the
`error_code{ERR_get_error(), get_ssl_category()}` built in `do_ssl_handshake`). -/
inductive ErrorCode where
  | ok
  | alreadyConnected
  | alreadyStarted
  | noProtocolOption
  | operationAborted
  | wsClosed
  | urlParseFailure (n : Nat)
  | resolveFailure (n : Nat)
  | tcpConnectFailure (n : Nat)
  | handshakeFailure (n : Nat)
  | sslCategoryError (n : Nat)
deriving DecidableEq, Repr

/-- TCP endpoint: `tcp::endpoint(addr, port)`; addresses abstracted as naturals. -/
structure Endpoint where
  addr : Nat
  port : Nat
deriving DecidableEq, Repr

/-- Which alternative `m_stream` (a variant of plain and SSL websocket streams) holds. -/
inductive StreamVariant where
  | plain
  | ssl
deriving DecidableEq, Repr

/-- Side effects of a member function, in program order. A `post…Handler` effect is a
`post(m_io_service, std::bind(handler, …))`: the handler is scheduled on the event
loop, never invoked synchronously inside the member function. The `async…` effects
are initiated asynchronous operations; `setHostName` is the `ssl::set_host_name`
SNI configuration call. Handlers are identified by a `Nat` id. -/
inductive Effect where
  | postConnectHandler (handler : Nat) (ec : ErrorCode)
  | postReadHandler (handler : Nat) (ec : ErrorCode) (bytes : Nat)
  | postWriteHandler (handler : Nat) (ec : ErrorCode) (bytes : Nat)
  | asyncClose
  | asyncResolve (hostname : String)
  | asyncTcpConnect (candidates : List Endpoint)
  | setHostName (hostname : String)
  | asyncSslHandshake
  | asyncWsHandshake (hostname target userAgent : String)
deriving DecidableEq, Repr

/-- The data members of `websocket_stream` that the embedded functions touch.
`m_ssl_context` records whether the constructor received a non-null `ssl_ctx`.
`m_connect_handler` is the stored pending connect handler (a handler id). -/
structure WSState where
  m_open : Bool
  m_connecting : Bool
  m_stream : StreamVariant
  m_url : String
  m_target : String
  m_hostname : String
  m_port : Nat
  m_endpoints : List Endpoint
  m_user_agent : String
  m_connect_handler : Nat
  m_ssl_context : Bool
deriving DecidableEq, Repr

/-- Result of `parse_url_components` on success: protocol, hostname, port (an `int`,
non-positive when unspecified), and the file/target portion assigned to `m_target`. -/
structure ParsedUrl where
  protocol : String
  hostname : String
  port : Int
  target : String
deriving DecidableEq, Repr

/-- websocket_stream::close (lines 84-98): if `m_open || m_connecting`, clear both
flags and initiate `async_close` on the stream (bound to `on_close`); otherwise
do nothing. -/
def close (s : WSState) : WSState × List Effect :=
  if s.m_open || s.m_connecting then
    ({ s with m_open := false, m_connecting := false }, [Effect.asyncClose])
  else
    (s, [])

/-- websocket_stream::on_close (lines 316-319): the close completion is discarded. -/
def on_close (_ec : ErrorCode) (s : WSState) : WSState × List Effect :=
  (s, [])

/-- websocket_stream::do_resolve (lines 154-164): store hostname and port, then
issue the async resolve for `m_hostname`. -/
def do_resolve (hostname : String) (port : Nat) (s : WSState) : WSState × List Effect :=
  ({ s with m_hostname := hostname, m_port := port }, [Effect.asyncResolve hostname])

/-- websocket_stream::do_connect (lines 110-152). Rejections while open or
connecting post the stored `m_connect_handler`; on a parse error the parser's code
is posted; scheme `ws` selects the plain stream, `wss` with a TLS context selects
the SSL stream, anything else posts `no_protocol_option`. Then the defaulting rules
run (`port <= 0` becomes 443, empty target becomes "/"), `m_connecting` is set and
resolution starts. The parser outcome is passed in as `parsed`; the `int` port is
narrowed to `uint16` at the `do_resolve(hostname, port)` call. -/
def do_connect (parsed : Except Nat ParsedUrl) (url : String) (s : WSState) :
    WSState × List Effect :=
  if s.m_open then
    (s, [Effect.postConnectHandler s.m_connect_handler ErrorCode.alreadyConnected])
  else if s.m_connecting then
    (s, [Effect.postConnectHandler s.m_connect_handler ErrorCode.alreadyStarted])
  else
    let s1 := { s with m_url := url }
    match parsed with
    | Except.error n =>
        (s1, [Effect.postConnectHandler s1.m_connect_handler (ErrorCode.urlParseFailure n)])
    | Except.ok p =>
        let s2 := { s1 with m_target := p.target }
        let variant : Option StreamVariant :=
          if p.protocol = "ws" then some StreamVariant.plain
          else if p.protocol = "wss" ∧ s2.m_ssl_context = true then some StreamVariant.ssl
          else none
        match variant with
        | none =>
            (s2, [Effect.postConnectHandler s2.m_connect_handler ErrorCode.noProtocolOption])
        | some v =>
            let port : Int := if p.port ≤ 0 then 443 else p.port
            let s3 := { s2 with m_stream := v }
            let s4 := { s3 with
              m_target := if s3.m_target = "" then "/" else s3.m_target }
            let s5 := { s4 with m_connecting := true }
            do_resolve p.hostname (port.toNat % 65536) s5

/-- Modelled from the spec: the public connect(url, handler) entry point is declared
in the header (websocket_stream.hpp), which is not under src/. Per the spec there is
a single PendingConnectHandler, at most one outstanding per machine instance, and
every connect-sequence outcome is funneled to it; `do_connect` posts the stored
`m_connect_handler`, so the entry point records the caller's handler there and then
runs `do_connect`. -/
def connect (parsed : Except Nat ParsedUrl) (url : String) (handler : Nat)
    (s : WSState) : WSState × List Effect :=
  do_connect parsed url { s with m_connect_handler := handler }

/-- websocket_stream::do_tcp_connect (lines 185-201): store the endpoint list, then
hand `boost::asio::async_connect` the reversed range (`rbegin`/`rend`); the effect
records the candidate order that async_connect receives. -/
def do_tcp_connect (endpoints : List Endpoint) (s : WSState) : WSState × List Effect :=
  ({ s with m_endpoints := endpoints }, [Effect.asyncTcpConnect endpoints.reverse])

/-- websocket_stream::on_resolve (lines 166-183): on resolver failure clear
`m_connecting` and post the resolver's error; on success build the endpoint list
from the addresses, in order, each paired with `m_port`, and start TCP connecting. -/
def on_resolve (ec : ErrorCode) (addresses : List Nat) (s : WSState) :
    WSState × List Effect :=
  if ec ≠ ErrorCode.ok then
    ({ s with m_connecting := false }, [Effect.postConnectHandler s.m_connect_handler ec])
  else
    do_tcp_connect (addresses.map (fun a => Endpoint.mk a s.m_port)) s

/-- Modelled from the spec: `boost::asio::async_connect` over an iterator range is an
external collaborator; per its contract (and the spec: candidates are consumed
sequentially until one connects or the list is exhausted) it attempts the candidates
it is given one at a time in range order, stopping at the first that connects. This
returns the list of attempts made, in order, given which endpoints would connect. -/
def asyncConnectAttempts (connects : Endpoint → Bool) : List Endpoint → List Endpoint
  | [] => []
  | e :: rest =>
      if connects e then [e] else e :: asyncConnectAttempts connects rest

/-- websocket_stream::do_ssl_handshake (lines 217-234): first configure SNI via
`ssl::set_host_name(handle, m_hostname, ec)`; if that fails, clear `m_connecting`
and post a fresh ssl-category code built from `ERR_get_error()` (not the `ec` from
`set_host_name`); otherwise initiate the client SSL handshake. `sniResult` is the
outcome of the external `set_host_name` call (`some e` when it sets `ec`), and
`sslErrno` the value `ERR_get_error()` returns. -/
def do_ssl_handshake (sniResult : Option Nat) (sslErrno : Nat) (s : WSState) :
    WSState × List Effect :=
  match sniResult with
  | some _ =>
      ({ s with m_connecting := false },
       [Effect.setHostName s.m_hostname,
        Effect.postConnectHandler s.m_connect_handler (ErrorCode.sslCategoryError sslErrno)])
  | none =>
      (s, [Effect.setHostName s.m_hostname, Effect.asyncSslHandshake])

/-- websocket_stream::on_tcp_connect (lines 203-215): on failure clear `m_connecting`
and post the error; on success branch on the stream variant: SSL goes to the SSL
handshake, plain goes straight to the websocket handshake. -/
def on_tcp_connect (sniResult : Option Nat) (sslErrno : Nat) (ec : ErrorCode)
    (s : WSState) : WSState × List Effect :=
  if ec ≠ ErrorCode.ok then
    ({ s with m_connecting := false }, [Effect.postConnectHandler s.m_connect_handler ec])
  else if s.m_stream = StreamVariant.ssl then
    do_ssl_handshake sniResult sslErrno s
  else
    (s, [Effect.asyncWsHandshake s.m_hostname s.m_target s.m_user_agent])

/-- websocket_stream::do_handshake (lines 249-275): decorate the request with the
user agent (when non-empty) and initiate the websocket handshake against
`m_hostname` and `m_target`. -/
def do_handshake (s : WSState) : WSState × List Effect :=
  (s, [Effect.asyncWsHandshake s.m_hostname s.m_target s.m_user_agent])

/-- websocket_stream::on_ssl_handshake (lines 236-247): on failure clear
`m_connecting` and post `operation_aborted` (not the underlying `ec`); on success
proceed to the websocket handshake. -/
def on_ssl_handshake (ec : ErrorCode) (s : WSState) : WSState × List Effect :=
  if ec ≠ ErrorCode.ok then
    ({ s with m_connecting := false },
     [Effect.postConnectHandler s.m_connect_handler ErrorCode.operationAborted])
  else
    do_handshake s

/-- websocket_stream::on_handshake (lines 277-297): on failure clear `m_connecting`
and post the error; on success, if `m_connecting` was concurrently cleared post
`operation_aborted`; otherwise clear `m_connecting`, set `m_open` and post success. -/
def on_handshake (ec : ErrorCode) (s : WSState) : WSState × List Effect :=
  if ec ≠ ErrorCode.ok then
    ({ s with m_connecting := false }, [Effect.postConnectHandler s.m_connect_handler ec])
  else if s.m_connecting = false then
    (s, [Effect.postConnectHandler s.m_connect_handler ErrorCode.operationAborted])
  else
    ({ s with m_connecting := false, m_open := true },
     [Effect.postConnectHandler s.m_connect_handler ErrorCode.ok])

/-- websocket_stream::on_read (lines 299-307): if not `m_open`, drop the completion;
if the error is the clean remote close (`websocket::error::closed`), clear `m_open`
first; then post the caller's read handler with the error and byte count. -/
def on_read (ec : ErrorCode) (bytes_read : Nat) (handler : Nat) (s : WSState) :
    WSState × List Effect :=
  if s.m_open = false then
    (s, [])
  else
    let s1 := if ec = ErrorCode.wsClosed then { s with m_open := false } else s
    (s1, [Effect.postReadHandler handler ec bytes_read])

/-- websocket_stream::on_write (lines 309-314): if not `m_open`, drop the completion;
otherwise post the caller's write handler with the error and byte count. -/
def on_write (ec : ErrorCode) (bytes_written : Nat) (handler : Nat) (s : WSState) :
    WSState × List Effect :=
  if s.m_open = false then
    (s, [])
  else
    (s, [Effect.postWriteHandler handler ec bytes_written])

/-- Sequential processing of a list of pending read completions (error, byte count,
handler id), accumulating the effects each `on_read` call emits. -/
def processReads : WSState → List (ErrorCode × Nat × Nat) → WSState × List Effect
  | s, [] => (s, [])
  | s, c :: rest =>
      let r := on_read c.1 c.2.1 c.2.2 s
      let r2 := processReads r.1 rest
      (r2.1, r.2 ++ r2.2)

/-- Spec §7 taxonomy: `TlsSetupFailure` names the class of codes the machine posts
when TLS setup (the SNI configuration) fails, namely an ssl-category code. -/
def isTlsSetupFailure : ErrorCode → Bool
  | ErrorCode.sslCategoryError _ => true
  | _ => false

/-- Sample state: a machine mid-connect (during the protocol handshake), pending
connect handler 1, plain stream, no TLS context. -/
def sampleConnecting : WSState :=
  { m_open := false, m_connecting := true, m_stream := StreamVariant.plain
  , m_url := "ws://h/x", m_target := "/x", m_hostname := "h", m_port := 443
  , m_endpoints := [], m_user_agent := "", m_connect_handler := 1
  , m_ssl_context := false }

/-- Sample state: an open connection. -/
def sampleOpen : WSState :=
  { sampleConnecting with m_open := true, m_connecting := false }

/-- Sample state: an idle machine (never connected, or reset). -/
def sampleIdle : WSState :=
  { sampleConnecting with m_connecting := false }

/-- Helper: `asyncConnectAttempts` tries the candidates sequentially in list order:
the attempts made are exactly the failing head of the list followed by the first
connecting candidate, when one exists. -/
theorem asyncConnectAttempts_eq (connects : Endpoint → Bool) (l : List Endpoint) :
    asyncConnectAttempts connects l =
      l.takeWhile (fun e => !(connects e)) ++
        (l.dropWhile (fun e => !(connects e))).take 1 := by
  induction l with
  | nil => rfl
  | cons e rest ih =>
      by_cases h : connects e
      · simp [asyncConnectAttempts, List.takeWhile_cons, List.dropWhile_cons, h]
      · simp [asyncConnectAttempts, List.takeWhile_cons, List.dropWhile_cons, h, ih]

/-- Helper: when no candidate connects, async_connect attempts the whole list in
order and exhausts it. -/
theorem asyncConnectAttempts_none (l : List Endpoint) :
    asyncConnectAttempts (fun _ => false) l = l := by
  induction l with
  | nil => rfl
  | cons e rest ih => simp [asyncConnectAttempts, ih]

/-- Helper: once `m_open` is cleared, a whole list of pending read completions is
processed with no effect at all: every completion is dropped. -/
theorem processReads_closed (s : WSState) (h : s.m_open = false)
    (cs : List (ErrorCode × Nat × Nat)) : processReads s cs = (s, []) := by
  induction cs with
  | nil => rfl
  | cons c rest ih => simp [processReads, on_read, h, ih]

/-- C1: if the protocol-handshake completion arrives with no error after a close()
already ran during the handshake (so `m_connecting` was cleared), the connect
handler is posted `operation_aborted` and the machine does not become open: close
leaves `m_open` false and the superseded success branch leaves the state unchanged. -/
theorem on_handshake_success_after_close_yields_aborted
    (s : WSState) (h : s.m_connecting = true) :
    (close s).1.m_open = false ∧
    on_handshake ErrorCode.ok (close s).1 =
      ((close s).1,
       [Effect.postConnectHandler (close s).1.m_connect_handler
          ErrorCode.operationAborted]) ∧
    (on_handshake ErrorCode.ok (close s).1).1.m_open = false := by
  simp [close, on_handshake, h]

/-- C1 witness: the theorem applied to the concrete mid-handshake state. -/
theorem on_handshake_success_after_close_yields_aborted_witness :
    sampleConnecting.m_connecting = true ∧
    (on_handshake ErrorCode.ok (close sampleConnecting).1).1.m_open = false :=
  ⟨rfl, (on_handshake_success_after_close_yields_aborted sampleConnecting rfl).2.2⟩

/-- C2: on resolver success the machine hands async_connect the endpoint candidates
in reverse of the resolver-returned order (each address paired with `m_port`), and
async_connect consumes that reversed list sequentially until one candidate connects
or the list is exhausted; in particular for resolver output [a, b, c] with nothing
connecting, the attempts are [c, b, a]. -/
theorem tcp_connect_tries_candidates_in_reverse_resolver_order
    (s : WSState) (addresses : List Nat) (connects : Endpoint → Bool) :
    (on_resolve ErrorCode.ok addresses s).2 =
      [Effect.asyncTcpConnect
        ((addresses.map (fun a => Endpoint.mk a s.m_port)).reverse)] ∧
    asyncConnectAttempts connects
        ((addresses.map (fun a => Endpoint.mk a s.m_port)).reverse) =
      ((addresses.map (fun a => Endpoint.mk a s.m_port)).reverse.takeWhile
          (fun e => !(connects e))) ++
        (((addresses.map (fun a => Endpoint.mk a s.m_port)).reverse.dropWhile
          (fun e => !(connects e))).take 1) ∧
    asyncConnectAttempts (fun _ => false)
        ((addresses.map (fun a => Endpoint.mk a s.m_port)).reverse) =
      (addresses.map (fun a => Endpoint.mk a s.m_port)).reverse := by
  exact ⟨by simp [on_resolve, do_tcp_connect], asyncConnectAttempts_eq _ _,
    asyncConnectAttempts_none _⟩

/-- C3: a read or write completion arriving while the machine is not open is
dropped: the state is unchanged and no handler is posted, so no error surfaces. -/
theorem io_completion_dropped_when_not_open
    (s : WSState) (ec : ErrorCode) (bytes handler : Nat) (h : s.m_open = false) :
    on_read ec bytes handler s = (s, []) ∧ on_write ec bytes handler s = (s, []) := by
  simp [on_read, on_write, h]

/-- C3 witness: a failing read completion and a write completion on the idle state
are both dropped. -/
theorem io_completion_dropped_when_not_open_witness :
    sampleIdle.m_open = false ∧
    on_read (ErrorCode.handshakeFailure 7) 5 2 sampleIdle = (sampleIdle, []) :=
  ⟨rfl, (io_completion_dropped_when_not_open sampleIdle
          (ErrorCode.handshakeFailure 7) 5 2 rfl).1⟩

/-- C4: close() does nothing when both flags are clear (the idle and closed
configurations); otherwise it immediately clears both flags — before the close
exchange completes — and its only effect is initiating the async close frame, whose
completion `on_close` discards; in every case close() posts no handler, so no error
or completion surfaces to any caller. -/
theorem close_semantics (s : WSState) :
    (s.m_open = false ∧ s.m_connecting = false → close s = (s, [])) ∧
    (s.m_open = true ∨ s.m_connecting = true →
      (close s).1 = { s with m_open := false, m_connecting := false } ∧
      (close s).2 = [Effect.asyncClose]) ∧
    (∀ ec t, on_close ec t = (t, [])) ∧
    (∀ e, e ∈ (close s).2 → e = Effect.asyncClose) := by
  refine ⟨?_, ?_, fun ec t => rfl, ?_⟩
  · rintro ⟨h1, h2⟩
    simp [close, h1, h2]
  · rintro (h | h) <;> simp [close, h]
  · intro e he
    by_cases h1 : s.m_open <;> by_cases h2 : s.m_connecting <;>
      simp [close, h1, h2] at he <;> exact he

/-- C4 witness: close() on the idle state is a no-op with no effects. -/
theorem close_semantics_witness :
    (sampleIdle.m_open = false ∧ sampleIdle.m_connecting = false) ∧
    close sampleIdle = (sampleIdle, []) :=
  ⟨⟨rfl, rfl⟩, (close_semantics sampleIdle).1 ⟨rfl, rfl⟩⟩

/-- C5: every SSL-handshake failure is reported to the connect handler as the
generic `operation_aborted`, regardless of the underlying error code, and
`m_connecting` is cleared (the machine leaves the connecting phase). -/
theorem ssl_handshake_failure_sanitized_to_aborted
    (s : WSState) (ec : ErrorCode) (h : ec ≠ ErrorCode.ok) :
    on_ssl_handshake ec s =
      ({ s with m_connecting := false },
       [Effect.postConnectHandler s.m_connect_handler ErrorCode.operationAborted]) := by
  simp [on_ssl_handshake, h]

/-- C5 witness: a concrete SSL-layer failure is posted as `operation_aborted`. -/
theorem ssl_handshake_failure_sanitized_to_aborted_witness :
    ErrorCode.sslCategoryError 11 ≠ ErrorCode.ok ∧
    on_ssl_handshake (ErrorCode.sslCategoryError 11) sampleConnecting =
      ({ sampleConnecting with m_connecting := false },
       [Effect.postConnectHandler 1 ErrorCode.operationAborted]) :=
  ⟨by decide,
   ssl_handshake_failure_sanitized_to_aborted sampleConnecting
     (ErrorCode.sslCategoryError 11) (by decide)⟩

/-- C6: the SSL stage configures SNI with the stored target hostname as its first
action, before the handshake is initiated (success case: `setHostName` precedes
`asyncSslHandshake`); and when the SNI configuration fails, the connect handler is
posted an ssl-category code — the spec's TlsSetupFailure class — and the machine
returns to idle (both flags clear, `m_open` having been false while connecting). -/
theorem sni_before_handshake_and_failure_resets
    (s : WSState) (sslErrno : Nat) (ho : s.m_open = false) :
    (do_ssl_handshake none sslErrno s).2 =
      [Effect.setHostName s.m_hostname, Effect.asyncSslHandshake] ∧
    (∀ e, (do_ssl_handshake (some e) sslErrno s).1.m_open = false ∧
          (do_ssl_handshake (some e) sslErrno s).1.m_connecting = false ∧
          (do_ssl_handshake (some e) sslErrno s).2 =
            [Effect.setHostName s.m_hostname,
             Effect.postConnectHandler s.m_connect_handler
               (ErrorCode.sslCategoryError sslErrno)] ∧
          isTlsSetupFailure (ErrorCode.sslCategoryError sslErrno) = true) := by
  exact ⟨rfl, fun e => ⟨ho, rfl, rfl, rfl⟩⟩

/-- C6 witness: the theorem at a concrete connecting state and SNI failure code. -/
theorem sni_before_handshake_and_failure_resets_witness :
    sampleConnecting.m_open = false ∧
    (do_ssl_handshake (some 3) 9 sampleConnecting).1.m_connecting = false :=
  ⟨rfl, ((sni_before_handshake_and_failure_resets sampleConnecting 9 rfl).2 3).2.1⟩

/-- C7 counterexample: connect() issued (with handler 2) while a first attempt with
pending handler 1 is mid-connect posts `already_started` to handler 2 — but the
stored pending connect handler of the first attempt is not unaffected: it has been
replaced by 2, so the first attempt's eventual completion would reach handler 2. -/
theorem connect_second_call_replaces_pending_handler_cex :
    sampleConnecting.m_connecting = true ∧
    sampleConnecting.m_connect_handler = 1 ∧
    (connect (Except.error 0) "u" 2 sampleConnecting).2 =
      [Effect.postConnectHandler 2 ErrorCode.alreadyStarted] ∧
    (connect (Except.error 0) "u" 2 sampleConnecting).1.m_connect_handler = 2 := by
  exact ⟨rfl, rfl, rfl, rfl⟩

/-- C7 amended: connect() while open posts `already_connected` to the new caller's
handler, and connect() while a first attempt is mid-connect posts `already_started`
to the new caller's handler; in both cases the rejection is a posted (asynchronous)
effect and the machine state is otherwise untouched — except that the stored pending
connect handler is replaced by the new caller's handler. -/
theorem connect_rejections_amended (parsed : Except Nat ParsedUrl) (url : String)
    (handler : Nat) (s : WSState) :
    (s.m_open = true →
      connect parsed url handler s =
        ({ s with m_connect_handler := handler },
         [Effect.postConnectHandler handler ErrorCode.alreadyConnected])) ∧
    (s.m_open = false → s.m_connecting = true →
      connect parsed url handler s =
        ({ s with m_connect_handler := handler },
         [Effect.postConnectHandler handler ErrorCode.alreadyStarted])) := by
  constructor
  · intro h
    simp [connect, do_connect, h]
  · intro h1 h2
    simp [connect, do_connect, h1, h2]

/-- C7 witness: connect() with handler 2 while open is rejected with
`already_connected` posted to handler 2. -/
theorem connect_rejections_amended_witness :
    sampleOpen.m_open = true ∧
    connect (Except.error 0) "u" 2 sampleOpen =
      ({ sampleOpen with m_connect_handler := 2 },
       [Effect.postConnectHandler 2 ErrorCode.alreadyConnected]) :=
  ⟨rfl, (connect_rejections_amended (Except.error 0) "u" 2 sampleOpen).1 rfl⟩

/-- C8: for a successfully parsed URL accepted by the scheme check (plain scheme, or
secure scheme with a TLS context), the stored handshake target applies the
defaulting rules: an empty path becomes "/" (otherwise the parsed path is kept) and
a non-positive (unspecified) port becomes 443. -/
theorem handshake_target_defaulting (p : ParsedUrl) (url : String) (s : WSState)
    (hOpen : s.m_open = false) (hConn : s.m_connecting = false)
    (hProto : p.protocol = "ws" ∨ (p.protocol = "wss" ∧ s.m_ssl_context = true)) :
    (do_connect (Except.ok p) url s).1.m_target =
      (if p.target = "" then "/" else p.target) ∧
    (p.port ≤ 0 → (do_connect (Except.ok p) url s).1.m_port = 443) := by
  rcases hProto with h | ⟨h, hctx⟩
  · constructor
    · simp [do_connect, do_resolve, hOpen, hConn, h]
    · intro hp
      simp [do_connect, do_resolve, hOpen, hConn, h, hp]
  · have hne : ¬ p.protocol = "ws" := by rw [h]; decide
    constructor
    · simp [do_connect, do_resolve, hOpen, hConn, h, hne, hctx]
    · intro hp
      simp [do_connect, do_resolve, hOpen, hConn, h, hne, hctx, hp]

/-- C8 witness: parsing the secure scheme with empty path and unspecified port on an
idle machine with a TLS context yields target "/" and port 443. -/
theorem handshake_target_defaulting_witness :
    (sampleIdle.m_open = false ∧ sampleIdle.m_connecting = false) ∧
    (do_connect (Except.ok ⟨"ws", "host", -1, ""⟩) "u" sampleIdle).1.m_target = "/" ∧
    (do_connect (Except.ok ⟨"ws", "host", -1, ""⟩) "u" sampleIdle).1.m_port = 443 :=
  ⟨⟨rfl, rfl⟩,
   (handshake_target_defaulting ⟨"ws", "host", -1, ""⟩ "u" sampleIdle rfl rfl
      (Or.inl rfl)).1,
   (handshake_target_defaulting ⟨"ws", "host", -1, ""⟩ "u" sampleIdle rfl rfl
      (Or.inl rfl)).2 (by decide)⟩

/-- C9: a read completion carrying the clean remote-close code while open clears
`m_open` (so the state is closed in the result in which the completion is posted),
forwards exactly that one completion to the read handler, and a whole list of later
pending completions processed after it is dropped entirely. -/
theorem remote_close_forwards_one_completion
    (s : WSState) (bytes handler : Nat) (rest : List (ErrorCode × Nat × Nat))
    (h : s.m_open = true) :
    (on_read ErrorCode.wsClosed bytes handler s).1.m_open = false ∧
    (on_read ErrorCode.wsClosed bytes handler s).2 =
      [Effect.postReadHandler handler ErrorCode.wsClosed bytes] ∧
    processReads s ((ErrorCode.wsClosed, bytes, handler) :: rest) =
      ({ s with m_open := false },
       [Effect.postReadHandler handler ErrorCode.wsClosed bytes]) := by
  have hr : on_read ErrorCode.wsClosed bytes handler s =
      ({ s with m_open := false },
       [Effect.postReadHandler handler ErrorCode.wsClosed bytes]) := by
    simp [on_read, h]
  have h2 : processReads { s with m_open := false } rest =
      ({ s with m_open := false }, []) := processReads_closed _ rfl rest
  refine ⟨by rw [hr], by rw [hr], ?_⟩
  simp [processReads, hr, h2]

/-- C9 witness: the clean-close completion on the open state, followed by two more
pending completions, forwards exactly the one closing completion. -/
theorem remote_close_forwards_one_completion_witness :
    sampleOpen.m_open = true ∧
    processReads sampleOpen
        [(ErrorCode.wsClosed, 0, 2), (ErrorCode.ok, 4, 2), (ErrorCode.ok, 6, 3)] =
      ({ sampleOpen with m_open := false },
       [Effect.postReadHandler 2 ErrorCode.wsClosed 0]) :=
  ⟨rfl, (remote_close_forwards_one_completion sampleOpen 0 2
          [(ErrorCode.ok, 4, 2), (ErrorCode.ok, 6, 3)] rfl).2.2⟩

/-- C10: the supersession re-check guards only the success branch: when a close()
has run during the protocol handshake and the handshake then completes with an
error, the connect handler is still posted that underlying error itself (not
`operation_aborted`, and not dropped). -/
theorem on_handshake_error_after_close_forwards_error
    (s : WSState) (ec : ErrorCode) (hc : s.m_connecting = true)
    (he : ec ≠ ErrorCode.ok) :
    on_handshake ec (close s).1 =
      ({ (close s).1 with m_connecting := false },
       [Effect.postConnectHandler (close s).1.m_connect_handler ec]) := by
  simp [close, on_handshake, hc, he]

/-- C10 witness: a concrete handshake error after close is forwarded unchanged. -/
theorem on_handshake_error_after_close_forwards_error_witness :
    (sampleConnecting.m_connecting = true ∧
      ErrorCode.handshakeFailure 4 ≠ ErrorCode.ok) ∧
    on_handshake (ErrorCode.handshakeFailure 4) (close sampleConnecting).1 =
      ({ (close sampleConnecting).1 with m_connecting := false },
       [Effect.postConnectHandler 1 (ErrorCode.handshakeFailure 4)]) :=
  ⟨⟨rfl, by decide⟩,
   on_handshake_error_after_close_forwards_error sampleConnecting
     (ErrorCode.handshakeFailure 4) rfl (by decide)⟩

end WebsocketStream
